import Mathlib

/-!
Shallow embedding of the orchestration and resource-lifecycle layer of the
HunYuan3D-2-Shape repository: the model manager (src/service/model_manager.py),
the pipeline orchestrator (src/service/pipeline_orchestrator.py), the
multi-view preprocessor (src/preprocessing/multi_view_processor.py), the mesh
optimizers (src/postprocessing/mesh_optimizer.py,
src/postprocessing/advanced_mesh_optimizer.py) and the lighting normalizer
(src/preprocessing/lighting_normalizer.py).

External collaborators (PIL image loading, the BiRefNet segmentation model,
the generative inference pipelines, the pymeshlab filters, cv2) are opaque
callables from the point of view of the core and are modelled as explicit function
parameters; images and meshes are abstract handles (Nat).  Python dicts are
modelled as insertion-ordered association lists, matching dict iteration
order; dict-key uniqueness is the Nodup invariant on the key list.
-/

namespace HY3D

/-- Abstract handle for a PIL image. -/
abbrev Img := Nat

/-- Abstract handle for a trimesh mesh object. -/
abbrev Mesh := Nat

/-- The Python exceptions the embedded layer can raise, one constructor per
raise site (the source raises `ValueError`, `RuntimeError`, `IndexError`). -/
inductive PyError where
  /-- The ValueError (missing front view) raised in
  `PipelineOrchestrator._generate_multi_view`. -/
  | missingFrontView
  /-- The ValueError (invalid view name) raised in
  `MultiViewProcessor.process`. -/
  | invalidViewName (name : String)
  /-- The RuntimeError (model not loaded) raised in
  `ModelManager.get_model`. -/
  | modelNotLoaded
  /-- An IndexError: `mesh[0]` on an empty list, or `list(views.keys())[0]`
  on an empty dict. -/
  | listIndexOutOfRange
  /-- The shape of the input does not match the (forced) input mode: the source
  would fail inside an external collaborator on such a call. -/
  | inputShapeMismatch
  deriving DecidableEq, Repr

/-- Embeds `ModelType` from src/service/types.py. -/
inductive ModelType where
  | hunyuan3d_2_1
  | hunyuan3d_2mv
  deriving DecidableEq, Repr

/-- The `.value` of each `ModelType` enum member. -/
def ModelType.value : ModelType → String
  | .hunyuan3d_2_1 => "hunyuan3d-2.1"
  | .hunyuan3d_2mv => "hunyuan3d-2mv"

/-- Python `key in dict` on an association-list dict. -/
def hasKey (models : List (String × Nat)) (key : String) : Bool :=
  models.any (fun p => p.1 == key)

/-- Python `dict[key]` lookup (as an `Option`). -/
def getKey (models : List (String × Nat)) (key : String) : Option Nat :=
  (models.find? (fun p => p.1 == key)).map Prod.snd

/-- Python `del dict[key]`: the key is gone afterwards (a dict holds at most
one entry per key, so filtering every entry with the key removes exactly it). -/
def delKey (models : List (String × Nat)) (key : String) : List (String × Nat) :=
  models.filter (fun p => p.1 != key)

/-- The mutable state of `ModelManager` (src/service/model_manager.py):
`self._models` (dict keyed by `ModelType.value`, values are pipeline handles)
and `self._current_model`.  `instantiations` counts the
`Hunyuan3DDiTFlowMatchingPipeline.from_pretrained` calls performed so far and
doubles as the supply of fresh pipeline handles, so a state change that keeps
`instantiations` is one that instantiated nothing. -/
structure ManagerState where
  models : List (String × Nat)
  currentModel : Option String
  instantiations : Nat
  deriving DecidableEq, Repr

/-- Embeds `ModelManager.load_model`: if the kind is already resident just mark it
current and return; otherwise instantiate a fresh pipeline on the device,
store it under the key of the kind and mark it current. -/
def ManagerState.loadModel (s : ManagerState) (t : ModelType) : ManagerState :=
  if hasKey s.models t.value then
    { s with currentModel := some t.value }
  else
    { models := s.models ++ [(t.value, s.instantiations)]
      currentModel := some t.value
      instantiations := s.instantiations + 1 }

/-- Embeds `ModelManager.unload_model`: if resident, delete the handle and clear
`_current_model` when it pointed at this kind (the device-side cache flush is
an external torch effect with no bearing on the manager state); no-op when the
kind is not resident. -/
def ManagerState.unloadModel (s : ManagerState) (t : ModelType) : ManagerState :=
  if hasKey s.models t.value then
    { s with
      models := delKey s.models t.value
      currentModel := if s.currentModel = some t.value then none else s.currentModel }
  else s

/-- Embeds `ModelManager.get_model`: the handle for the requested kind, or for the
current kind when none is requested; `RuntimeError` when neither is resident. -/
def ManagerState.getModel (s : ManagerState) (t : Option ModelType) :
    Except PyError Nat :=
  match (match t with | some m => some m.value | none => s.currentModel) with
  | none => .error .modelNotLoaded
  | some key =>
    match getKey s.models key with
    | none => .error .modelNotLoaded
    | some h => .ok h

/-- Embeds `ModelManager.loaded_models`. -/
def ManagerState.loadedModels (s : ManagerState) : List String :=
  s.models.map Prod.fst

/-! ### Dict-model lemmas shared by the manager proofs -/

theorem hasKey_iff_mem (models : List (String × Nat)) (key : String) :
    hasKey models key = true ↔ key ∈ models.map Prod.fst := by
  simp [hasKey, List.any_eq_true, List.mem_map]

theorem hasKey_false_count (models : List (String × Nat)) (key : String)
    (h : hasKey models key = false) : (models.map Prod.fst).count key = 0 := by
  rw [List.count_eq_zero]
  intro hmem
  rw [← hasKey_iff_mem] at hmem
  simp [h] at hmem

theorem hasKey_delKey (models : List (String × Nat)) (key : String) :
    hasKey (delKey models key) key = false := by
  by_contra h
  simp only [Bool.not_eq_false] at h
  rw [hasKey_iff_mem, List.mem_map] at h
  obtain ⟨p, hp, he⟩ := h
  rw [delKey, List.mem_filter] at hp
  rw [he] at hp
  simp at hp

theorem hasKey_append_self (models : List (String × Nat)) (key : String) (v : Nat) :
    hasKey (models ++ [(key, v)]) key = true := by
  simp [hasKey]

theorem loadModel_resident (s : ManagerState) (t : ModelType)
    (h : hasKey s.models t.value = true) :
    s.loadModel t = { s with currentModel := some t.value } := by
  simp [ManagerState.loadModel, h]

theorem loadModel_fresh (s : ManagerState) (t : ModelType)
    (h : hasKey s.models t.value = false) :
    s.loadModel t =
      { models := s.models ++ [(t.value, s.instantiations)]
        currentModel := some t.value
        instantiations := s.instantiations + 1 } := by
  simp [ManagerState.loadModel, h]

theorem loadModel_hasKey (s : ManagerState) (t : ModelType) :
    hasKey (s.loadModel t).models t.value = true := by
  by_cases h : hasKey s.models t.value = true
  · rw [loadModel_resident s t h]
    exact h
  · rw [Bool.not_eq_true] at h
    rw [loadModel_fresh s t h]
    exact hasKey_append_self s.models t.value s.instantiations

theorem loadModel_currentModel (s : ManagerState) (t : ModelType) :
    (s.loadModel t).currentModel = some t.value := by
  by_cases h : hasKey s.models t.value = true
  · rw [loadModel_resident s t h]
  · rw [Bool.not_eq_true] at h
    rw [loadModel_fresh s t h]

theorem loadModel_idem (s : ManagerState) (t : ModelType) :
    (s.loadModel t).loadModel t = s.loadModel t := by
  rw [loadModel_resident (s.loadModel t) t (loadModel_hasKey s t)]
  have hc := loadModel_currentModel s t
  cases hl : s.loadModel t with
  | mk models current inst =>
    rw [hl] at hc
    simp at hc
    simp [hc]

theorem loadModel_count_one (s : ManagerState) (t : ModelType)
    (hnd : (s.models.map Prod.fst).Nodup) :
    ((s.loadModel t).models.map Prod.fst).count t.value = 1 := by
  by_cases h : hasKey s.models t.value = true
  · rw [loadModel_resident s t h]
    have hmem : t.value ∈ s.models.map Prod.fst := (hasKey_iff_mem _ _).mp h
    exact List.count_eq_one_of_mem hnd hmem
  · rw [Bool.not_eq_true] at h
    rw [loadModel_fresh s t h]
    have h0 := hasKey_false_count s.models t.value h
    simp [List.count_append, h0]

theorem loadModel_nodup (s : ManagerState) (t : ModelType)
    (hnd : (s.models.map Prod.fst).Nodup) :
    ((s.loadModel t).models.map Prod.fst).Nodup := by
  by_cases h : hasKey s.models t.value = true
  · rw [loadModel_resident s t h]
    exact hnd
  · rw [Bool.not_eq_true] at h
    rw [loadModel_fresh s t h]
    have hnot : t.value ∉ s.models.map Prod.fst := by
      intro hmem
      rw [← hasKey_iff_mem] at hmem
      rw [h] at hmem
      exact Bool.false_ne_true hmem
    simp [List.nodup_append, hnd, hnot]

/-- C5: `load_model` is idempotent.  (1) If the kind is already resident the
call only sets it as current (the resident mapping and the instantiation count
are untouched, so nothing is re-instantiated); (2) two consecutive calls are
the same as one; (3) after two consecutive calls the resident mapping holds
exactly one handle for the kind; (4) the mapping never comes to hold more
than one handle per kind (key uniqueness is preserved by `load_model`). -/
theorem loadModel_idempotent_spec :
    (∀ (s : ManagerState) (t : ModelType), hasKey s.models t.value = true →
      s.loadModel t = { s with currentModel := some t.value }) ∧
    (∀ (s : ManagerState) (t : ModelType),
      (s.loadModel t).loadModel t = s.loadModel t) ∧
    (∀ (s : ManagerState) (t : ModelType), (s.models.map Prod.fst).Nodup →
      (((s.loadModel t).loadModel t).models.map Prod.fst).count t.value = 1) ∧
    (∀ (s : ManagerState) (t : ModelType), (s.models.map Prod.fst).Nodup →
      ((s.loadModel t).models.map Prod.fst).Nodup) := by
  refine ⟨loadModel_resident, loadModel_idem, ?_, loadModel_nodup⟩
  intro s t hnd
  rw [loadModel_idem]
  exact loadModel_count_one s t hnd

/-- C9: `unload_model`.  (1) Unloading a kind right after loading it removes
it from the resident set and (2) clears the current pointer (which the load
had set to that kind); (3) when `current` points at a resident kind,
unloading that kind clears `current`; (4) unloading a kind that is not
resident is a no-op (state unchanged). -/
theorem unloadModel_spec :
    (∀ (s : ManagerState) (t : ModelType),
      hasKey ((s.loadModel t).unloadModel t).models t.value = false) ∧
    (∀ (s : ManagerState) (t : ModelType),
      ((s.loadModel t).unloadModel t).currentModel = none) ∧
    (∀ (s : ManagerState) (t : ModelType), hasKey s.models t.value = true →
      s.currentModel = some t.value → (s.unloadModel t).currentModel = none) ∧
    (∀ (s : ManagerState) (t : ModelType), hasKey s.models t.value = false →
      s.unloadModel t = s) := by
  have hclear : ∀ (s : ManagerState) (t : ModelType), hasKey s.models t.value = true →
      s.currentModel = some t.value → (s.unloadModel t).currentModel = none := by
    intro s t hk hc
    simp [ManagerState.unloadModel, hk, hc]
  refine ⟨?_, ?_, hclear, ?_⟩
  · intro s t
    simp [ManagerState.unloadModel, loadModel_hasKey s t]
    exact hasKey_delKey (s.loadModel t).models t.value
  · intro s t
    exact hclear (s.loadModel t) t (loadModel_hasKey s t) (loadModel_currentModel s t)
  · intro s t h
    simp [ManagerState.unloadModel, h]

/-! ### Mesh optimizers (src/postprocessing) -/

/-- The observable state of a current mesh of a pymeshlab `MeshSet`: its face and
vertex counts, plus an abstract payload standing for the rest of the geometry
(so that two meshes with equal counts need not be equal). -/
structure MLMesh where
  faceNumber : Nat
  vertexNumber : Nat
  payload : Nat
  deriving DecidableEq, Repr

/-- An external pymeshlab filter: it either returns the transformed mesh or
raises (the error payload is the exception message). -/
abbrev MLFilter := MLMesh → Except String MLMesh

/-- Embeds `MeshOptimizer._reduce_faces`: early-return when
`max_facenum > ms.current_mesh().face_number()` (a strict comparison in the
source), otherwise invoke the external
`meshing_decimation_quadric_edge_collapse` filter with the target face count.
The filter itself is an opaque pymeshlab call, passed as a parameter; the
source never inspects its result, so a raising filter propagates
(`_reduce_faces` has no try/except).  Here only the non-raising behaviour
matters, so the filter parameter is total. -/
def reduceFaces (decimationFilter : MLMesh → Nat → MLMesh) (ms : MLMesh)
    (maxFacenum : Nat) : MLMesh :=
  if maxFacenum > ms.faceNumber then ms
  else decimationFilter ms maxFacenum

/-- One `try: ms.apply_filter(...) except: print warning` block of
`AdvancedMeshOptimizer`: apply the external filter; when it raises, record a
warning and carry the mesh forward unmodified. -/
def tryFilter (f : MLFilter) (ms : MLMesh) : MLMesh :=
  match f ms with
  | .ok ms2 => ms2
  | .error _ => ms

/-- Embeds `AdvancedMeshOptimizer._make_watertight`: the five repair sub-steps in
source order — repair non-manifold edges, repair non-manifold vertices,
remove duplicate faces, remove duplicate vertices, remove null faces — each
wrapped in its own try/except block. -/
def makeWatertight (repairEdges repairVertices removeDupFaces removeDupVertices
    removeNullFaces : MLFilter) (ms : MLMesh) : MLMesh :=
  let ms1 := match repairEdges ms with
    | .ok m => m
    | .error _ => ms
  let ms2 := match repairVertices ms1 with
    | .ok m => m
    | .error _ => ms1
  let ms3 := match removeDupFaces ms2 with
    | .ok m => m
    | .error _ => ms2
  let ms4 := match removeDupVertices ms3 with
    | .ok m => m
    | .error _ => ms3
  match removeNullFaces ms4 with
  | .ok m => m
  | .error _ => ms4

theorem tryFilter_error (f : MLFilter) (m : MLMesh) (e : String)
    (h : f m = .error e) : tryFilter f m = m := by
  simp [tryFilter, h]

theorem tryFilter_ok (f : MLFilter) (m m2 : MLMesh)
    (h : f m = .ok m2) : tryFilter f m = m2 := by
  simp [tryFilter, h]

theorem makeWatertight_chain (f1 f2 f3 f4 f5 : MLFilter) (ms : MLMesh) :
    makeWatertight f1 f2 f3 f4 f5 ms =
      tryFilter f5 (tryFilter f4 (tryFilter f3 (tryFilter f2 (tryFilter f1 ms)))) := by
  rfl

/-- C2 counterexample: the early-return guard of `_reduce_faces` is strict
(`max_facenum > face_number`), so a target face count exactly equal to the
current face count does not take the no-op branch — the quadric decimation
filter is invoked, and the output of the stage is whatever that external filter
produces.  For a filter that lowers the face count by one (decimation may
remove faces) and a 12-face mesh with target 12 (12 ≥ 12), the stage changes
the face count, refuting the claim as stated. -/
theorem reduceFaces_equal_target_cex :
    12 ≥ 12 ∧
    (reduceFaces
      (fun ms _ => { faceNumber := ms.faceNumber - 1
                     vertexNumber := ms.vertexNumber
                     payload := ms.payload })
      { faceNumber := 12, vertexNumber := 8, payload := 0 } 12).faceNumber ≠ 12 := by
  exact ⟨le_refl 12, by decide⟩

/-- C2 (amended): the decimation stage is a guaranteed no-op only when the
requested target face count is strictly greater than the current face count
(then the mesh — hence its face and vertex counts — is returned unchanged);
when the target equals the current face count the external decimation filter
is invoked on the mesh. -/
theorem reduceFaces_strict_guard (decimationFilter : MLMesh → Nat → MLMesh)
    (ms : MLMesh) (target : Nat) :
    (ms.faceNumber < target → reduceFaces decimationFilter ms target = ms) ∧
    (target = ms.faceNumber →
      reduceFaces decimationFilter ms target = decimationFilter ms target) := by
  constructor
  · intro h
    simp [reduceFaces, h]
  · intro h
    simp [reduceFaces, h]

/-- C7: watertight repair applies its sub-steps in the fixed source order
(repair non-manifold edges, non-manifold vertices, duplicate faces, duplicate
vertices, null faces), with each sub-step run through its own try/except
(`tryFilter`): (1) the whole stage is the ordered chain of the five guarded
steps, so every sub-step receives the mesh carried out of the previous one
even when earlier ones failed; (2) a failing sub-step never aborts — the mesh
is carried forward unmodified by that step; (3) the output of a succeeding sub-step
is carried forward; (4) in particular, when the first sub-step always raises,
the remaining four still run on the unchanged input mesh. -/
theorem makeWatertight_order_and_fault_tolerance
    (f1 f2 f3 f4 f5 : MLFilter) (ms : MLMesh) :
    (makeWatertight f1 f2 f3 f4 f5 ms =
      tryFilter f5 (tryFilter f4 (tryFilter f3 (tryFilter f2 (tryFilter f1 ms))))) ∧
    (∀ (f : MLFilter) (m : MLMesh) (e : String), f m = .error e → tryFilter f m = m) ∧
    (∀ (f : MLFilter) (m m2 : MLMesh), f m = .ok m2 → tryFilter f m = m2) ∧
    (∀ (e : String), makeWatertight (fun _ => .error e) f2 f3 f4 f5 ms =
      tryFilter f5 (tryFilter f4 (tryFilter f3 (tryFilter f2 ms)))) := by
  refine ⟨makeWatertight_chain f1 f2 f3 f4 f5 ms, tryFilter_error, tryFilter_ok, ?_⟩
  intro e
  rw [makeWatertight_chain]
  rw [tryFilter_error (fun _ => .error e) ms e rfl]

/-! ### Pipeline orchestrator (src/service/pipeline_orchestrator.py) -/

/-- Embeds `InputMode` from src/service/types.py. -/
inductive InputMode where
  | single_image
  | multi_view
  deriving DecidableEq, Repr

/-- An input image as the orchestrator receives it: a filesystem path (str or
`Path`) or an already-decoded PIL image. -/
inductive ImgRef where
  | path (p : String)
  | image (i : Img)
  deriving DecidableEq, Repr

/-- Embeds `if isinstance(image, (str, Path)): image = Image.open(image)`. -/
def loadImg (openImage : String → Img) : ImgRef → Img
  | .path p => openImage p
  | .image i => i

/-- The `image` argument of `PipelineOrchestrator.generate`: a bare image or
a view-name → image dict. -/
inductive GenInput where
  | img (i : ImgRef)
  | views (vs : List (String × ImgRef))
  deriving DecidableEq, Repr

/-- Embeds `GenerationConfig` from src/service/types.py, with the default
field values of the source. -/
structure GenerationConfig where
  num_inference_steps : Nat := 50
  guidance_scale : ℚ := 5
  octree_resolution : Nat := 384
  remove_background : Bool := true
  optimize_mesh : Bool := true
  max_faces : Nat := 40000
  output_format : String := "glb"
  input_mode : InputMode := .single_image
  auto_detect_mode : Bool := true
  normalize_lighting : Bool := false
  lighting_method : String := "histogram_matching"
  lighting_strength : ℚ := 4/5
  fill_holes : Bool := false
  max_hole_size : Nat := 100
  make_watertight : Bool := false
  smooth_surface : Bool := false
  smooth_iterations : Nat := 2
  recalculate_normals : Bool := false
  deriving DecidableEq, Repr

/-- Embeds `GenerationResult` from src/service/types.py. -/
structure GenerationResult where
  mesh : Option Mesh
  task_id : String
  processing_time : ℚ
  config : GenerationConfig
  input_mode : InputMode := .single_image
  view_count : Nat := 1
  deriving DecidableEq, Repr

/-- The ambient effects a generation request samples: `uuid.uuid4()` and the
wall-clock time elapsed. -/
structure Env where
  taskId : String
  elapsed : ℚ

/-- What an inference pipeline call returns: a single mesh object (possibly
Python `None`) or a list of candidate meshes. -/
inductive InferOutput where
  | one (m : Option Mesh)
  | many (ms : List (Option Mesh))
  deriving DecidableEq, Repr

/-- Embeds `if isinstance(mesh, list): mesh = mesh[0]`; `[][0]` raises IndexError. -/
def takeFirst : InferOutput → Except PyError (Option Mesh)
  | .one m => .ok m
  | .many [] => .error .listIndexOutOfRange
  | .many (m :: _) => .ok m

/-- The opaque external collaborators the orchestrator drives.  `infer21` and
`infer2mv` take the resident pipeline handle, the input, and the numeric
config parameters (steps, guidance scale, octree resolution); `basicOpt` is
`MeshOptimizer.process` after `max_faces` is set; `advOpt` is
`AdvancedMeshOptimizer.process` with its keyword arguments (fill_holes,
max_hole_size, make_watertight, smooth_surface, smooth_iterations,
recalculate_normals); `lighting` is `LightingNormalizer.process` on a view
dict after `method` and `strength` are set. -/
structure ExternalOps where
  openImage : String → Img
  removeBg : Img → Img
  convertRGBA : Img → Img
  lighting : String → ℚ → List (String × Img) → List (String × Img)
  infer21 : Nat → Img → Nat → ℚ → Nat → InferOutput
  infer2mv : Nat → List (String × Img) → Nat → ℚ → Nat → InferOutput
  basicOpt : Nat → Mesh → Mesh
  advOpt : Mesh → Bool → Nat → Bool → Bool → Nat → Bool → Mesh

/-- Step 4 of `_generate_single` / `_generate_multi_view` (the two blocks are
verbatim identical in the source): post-processing runs only `if mesh is not
None`; basic optimization when `optimize_mesh`, advanced optimization when
any advanced flag is set. -/
def postprocess (ops : ExternalOps) (cfg : GenerationConfig) : Option Mesh → Option Mesh
  | none => none
  | some mesh =>
    let m1 := if cfg.optimize_mesh then ops.basicOpt cfg.max_faces mesh else mesh
    let m2 :=
      if cfg.fill_holes || cfg.make_watertight || cfg.smooth_surface ||
          cfg.recalculate_normals then
        ops.advOpt m1 cfg.fill_holes cfg.max_hole_size cfg.make_watertight
          cfg.smooth_surface cfg.smooth_iterations cfg.recalculate_normals
      else m1
    some m2

/-- Steps 1–2 of `_generate_single`: load the image if given as a path, then
background removal when `remove_background`. -/
def singleInferInput (ops : ExternalOps) (cfg : GenerationConfig)
    (image : ImgRef) : Img :=
  let img := loadImg ops.openImage image
  if cfg.remove_background then ops.removeBg img else img

/-- Embeds `PipelineOrchestrator._generate_single`. -/
def generateSingle (ops : ExternalOps) (env : Env) (mgr : ManagerState)
    (cfg : GenerationConfig) (image : ImgRef) : Except PyError GenerationResult :=
  match mgr.getModel (some .hunyuan3d_2_1) with
  | .error e => .error e
  | .ok pipeline =>
    match takeFirst (ops.infer21 pipeline (singleInferInput ops cfg image)
        cfg.num_inference_steps cfg.guidance_scale cfg.octree_resolution) with
    | .error e => .error e
    | .ok mesh =>
      .ok { mesh := postprocess ops cfg mesh
            task_id := env.taskId
            processing_time := env.elapsed
            config := cfg
            input_mode := .single_image
            view_count := 1 }

/-! ### Multi-view preprocessor (src/preprocessing/multi_view_processor.py) -/

/-- The fixed view-name set `VIEW_ORDER`. -/
def VIEW_ORDER : List String := ["front", "left", "back", "right"]

/-- Python `key in views` for a view dict. -/
def hasViewKey {α : Type} (views : List (String × α)) (key : String) : Bool :=
  views.any (fun p => p.1 == key)

/-- Embeds `MultiViewProcessor.validate_views`: membership of the front key. -/
def validateViews (views : List (String × ImgRef)) : Bool :=
  hasViewKey views "front"

/-- Embeds `MultiViewProcessor.process` (the "views" entry of its result; masks are
never consumed by the orchestrator): iterate the view dict in insertion
order, rejecting the first view name outside `VIEW_ORDER` with a
`ValueError`; load each image, then background-remove it (the orchestrator
always constructs the processor with a remover) or convert it to RGBA when
`remove_background` is off. -/
def processViews (ops : ExternalOps) (removeBackground : Bool) :
    List (String × ImgRef) → Except PyError (List (String × Img))
  | [] => .ok []
  | (viewName, image) :: rest =>
    if viewName ∈ VIEW_ORDER then
      let img := loadImg ops.openImage image
      let processed := if removeBackground then ops.removeBg img
        else ops.convertRGBA img
      match processViews ops removeBackground rest with
      | .ok tail => .ok ((viewName, processed) :: tail)
      | .error e => .error e
    else .error (.invalidViewName viewName)

/-- The `else` branch of step 1 of `_generate_multi_view`
(`remove_background` off): load each image, with no view-name validation. -/
def loadNoBg (ops : ExternalOps) (views : List (String × ImgRef)) :
    List (String × Img) :=
  views.map (fun p => (p.1, loadImg ops.openImage p.2))

/-- Step 1 of `_generate_multi_view`: preprocess through
`MultiViewProcessor.process` when `remove_background`, else just load. -/
def mvPreprocessed (ops : ExternalOps) (cfg : GenerationConfig)
    (views : List (String × ImgRef)) : Except PyError (List (String × Img)) :=
  if cfg.remove_background then processViews ops true views
  else .ok (loadNoBg ops views)

/-- Step 1.5 of `_generate_multi_view`: lighting normalization when
`normalize_lighting` and more than one processed view. -/
def mvLighting (ops : ExternalOps) (cfg : GenerationConfig)
    (pv : List (String × Img)) : List (String × Img) :=
  if cfg.normalize_lighting && decide (1 < pv.length) then
    ops.lighting cfg.lighting_method cfg.lighting_strength pv
  else pv

/-- Step 2 of `_generate_multi_view`: lazily load the multi-view model when
its key is not among `loaded_models`. -/
def mvManager (mgr : ManagerState) : ManagerState :=
  if hasKey mgr.models ModelType.hunyuan3d_2mv.value then mgr
  else mgr.loadModel .hunyuan3d_2mv

/-- Embeds `PipelineOrchestrator._generate_multi_view`, paired with the manager
state it leaves behind (the lazy load mutates the shared manager). -/
def generateMultiView (ops : ExternalOps) (env : Env) (mgr : ManagerState)
    (cfg : GenerationConfig) (images : List (String × ImgRef)) :
    Except PyError GenerationResult × ManagerState :=
  if validateViews images then
    match mvPreprocessed ops cfg images with
    | .error e => (.error e, mgr)
    | .ok pv =>
      let pv2 := mvLighting ops cfg pv
      let mgr2 := mvManager mgr
      match mgr2.getModel (some .hunyuan3d_2mv) with
      | .error e => (.error e, mgr2)
      | .ok pipeline =>
        match takeFirst (ops.infer2mv pipeline pv2 cfg.num_inference_steps
            cfg.guidance_scale cfg.octree_resolution) with
        | .error e => (.error e, mgr2)
        | .ok mesh =>
          (.ok { mesh := postprocess ops cfg mesh
                 task_id := env.taskId
                 processing_time := env.elapsed
                 config := cfg
                 input_mode := .multi_view
                 view_count := images.length }, mgr2)
  else (.error .missingFrontView, mgr)

/-- Embeds `PipelineOrchestrator._detect_input_mode`. -/
def detectInputMode : GenInput → InputMode
  | .views _ => .multi_view
  | .img _ => .single_image

/-- Embeds `PipelineOrchestrator.generate`.  The third component is the config
object of the caller as it stands after the call: the source assigns
`config.input_mode = self._detect_input_mode(image)` on the mutable dataclass
of the caller when `auto_detect_mode` is set.  A forced mode that contradicts the
input shape would crash inside an external collaborator in the source and
is modelled as `inputShapeMismatch`. -/
def generate (ops : ExternalOps) (env : Env) (mgr : ManagerState)
    (cfg : GenerationConfig) (input : GenInput) :
    (Except PyError GenerationResult × ManagerState) × GenerationConfig :=
  let cfg2 := if cfg.auto_detect_mode then
      { cfg with input_mode := detectInputMode input } else cfg
  match cfg2.input_mode, input with
  | .multi_view, .views vs => (generateMultiView ops env mgr cfg2 vs, cfg2)
  | .multi_view, .img _ => ((.error .inputShapeMismatch, mgr), cfg2)
  | .single_image, .img i => ((generateSingle ops env mgr cfg2 i, mgr), cfg2)
  | .single_image, .views _ => ((.error .inputShapeMismatch, mgr), cfg2)

/-! ### Orchestrator lemmas -/

theorem hasViewKey_iff_mem {α : Type} (views : List (String × α)) (key : String) :
    hasViewKey views key = true ↔ key ∈ views.map Prod.fst := by
  simp [hasViewKey, List.any_eq_true, List.mem_map]

theorem getKey_isSome_of_hasKey (models : List (String × Nat)) (key : String)
    (h : hasKey models key = true) : ∃ v, getKey models key = some v := by
  rw [hasKey, List.any_eq_true] at h
  obtain ⟨p, hp, he⟩ := h
  have hs : (models.find? (fun p => p.1 == key)).isSome := by
    rw [List.find?_isSome]
    exact ⟨p, hp, he⟩
  obtain ⟨q, hq⟩ := Option.isSome_iff_exists.mp hs
  exact ⟨q.2, by rw [getKey, hq]; rfl⟩

theorem getModel_ok_of_hasKey (s : ManagerState) (t : ModelType)
    (h : hasKey s.models t.value = true) : ∃ v, s.getModel (some t) = .ok v := by
  obtain ⟨v, hv⟩ := getKey_isSome_of_hasKey s.models t.value h
  exact ⟨v, by simp [ManagerState.getModel, hv]⟩

theorem mvManager_hasKey (mgr : ManagerState) :
    hasKey (mvManager mgr).models ModelType.hunyuan3d_2mv.value = true := by
  by_cases h : hasKey mgr.models ModelType.hunyuan3d_2mv.value = true
  · rw [mvManager, if_pos h]
    exact h
  · rw [Bool.not_eq_true] at h
    rw [mvManager, if_neg (by simp [h])]
    exact loadModel_hasKey mgr .hunyuan3d_2mv

theorem mvManager_getModel_ok (mgr : ManagerState) :
    ∃ v, (mvManager mgr).getModel (some .hunyuan3d_2mv) = .ok v :=
  getModel_ok_of_hasKey _ _ (mvManager_hasKey mgr)

theorem processViews_invalid (ops : ExternalOps) (b : Bool)
    (views : List (String × ImgRef)) (hbad : ∃ pv ∈ views, pv.1 ∉ VIEW_ORDER) :
    ∃ n, n ∉ VIEW_ORDER ∧ processViews ops b views = .error (.invalidViewName n) := by
  induction views with
  | nil => simp at hbad
  | cons p rest ih =>
    by_cases hname : p.1 ∈ VIEW_ORDER
    · have hrest : ∃ pv ∈ rest, pv.1 ∉ VIEW_ORDER := by
        obtain ⟨pv, hpv, hb⟩ := hbad
        rcases List.mem_cons.mp hpv with h | h
        · exact absurd hname (h ▸ hb)
        · exact ⟨pv, h, hb⟩
      obtain ⟨n, hn, he⟩ := ih hrest
      refine ⟨n, hn, ?_⟩
      cases p with
      | mk name image =>
        simp only [processViews]
        rw [if_pos hname, he]
    · refine ⟨p.1, hname, ?_⟩
      cases p with
      | mk name image =>
        simp only [processViews]
        rw [if_neg hname]

theorem takeFirst_error_eq (o : InferOutput) (e : PyError)
    (h : takeFirst o = .error e) : e = .listIndexOutOfRange := by
  cases o with
  | one m => simp [takeFirst] at h
  | many ms =>
    cases ms with
    | nil =>
      rw [takeFirst] at h
      exact (Except.error.injEq _ _).mp h.symm
    | cons m t => simp [takeFirst] at h

/-! ### Shared concrete instances for counterexamples and witnesses -/

/-- Concrete external collaborators: loading yields handle 0, segmentation
and conversions are identity on handles, inference returns one mesh. -/
def opsC : ExternalOps :=
  { openImage := fun _ => 0
    removeBg := fun i => i
    convertRGBA := fun i => i
    lighting := fun _ _ v => v
    infer21 := fun _ _ _ _ _ => .one (some 5)
    infer2mv := fun _ _ _ _ _ => .one (some 7)
    basicOpt := fun _ m => m
    advOpt := fun m _ _ _ _ _ _ => m }

/-- Concrete collaborators whose inference yields no usable mesh (`None`). -/
def opsNone : ExternalOps :=
  { opsC with
    infer21 := fun _ _ _ _ _ => .one none
    infer2mv := fun _ _ _ _ _ => .one none }

def envC : Env := { taskId := "t", elapsed := 0 }

/-- A manager with only the single-image model resident. -/
def mgr21 : ManagerState :=
  { models := [("hunyuan3d-2.1", 0)]
    currentModel := some "hunyuan3d-2.1"
    instantiations := 1 }

/-- A manager with both models resident. -/
def mgrBoth : ManagerState :=
  { models := [("hunyuan3d-2.1", 0), ("hunyuan3d-2mv", 1)]
    currentModel := some "hunyuan3d-2mv"
    instantiations := 2 }

/-! ### Claims about the orchestrator -/

/-- C4: view-set validation is exactly "the mapping contains the key front":
the stated examples hold (`validate {} = false`, `validate {front} = true`,
`validate {left} = false`), and for every view mapping lacking `front`,
multi-view generation fails with the validation error before anything else
happens — for every choice of external collaborators (in particular every
inference callable), and with the manager state unchanged (so no lazy model
load and no inference call has occurred). -/
theorem validate_front_iff_blocks_inference :
    (∀ (views : List (String × ImgRef)),
      validateViews views = true ↔ "front" ∈ views.map Prod.fst) ∧
    validateViews [] = false ∧
    (∀ (i : ImgRef), validateViews [("front", i)] = true) ∧
    (∀ (i : ImgRef), validateViews [("left", i)] = false) ∧
    (∀ (ops : ExternalOps) (env : Env) (mgr : ManagerState)
      (cfg : GenerationConfig) (views : List (String × ImgRef)),
      validateViews views = false →
      generateMultiView ops env mgr cfg views = (.error .missingFrontView, mgr)) := by
  refine ⟨fun views => hasViewKey_iff_mem views "front", rfl,
    fun i => rfl, fun i => rfl, ?_⟩
  intro ops env mgr cfg views h
  simp [generateMultiView, h]

/-- C4 witness: a mapping with only a `left` view fails validation, and the
request errors out with the manager untouched, at concrete inputs. -/
theorem validate_front_blocks_witness :
    generateMultiView opsC envC mgrBoth {} [("left", ImgRef.image 0)] =
      (.error .missingFrontView, mgrBoth) :=
  validate_front_iff_blocks_inference.2.2.2.2 opsC envC mgrBoth {}
    [("left", ImgRef.image 0)] (by decide)

/-- C1 counterexample: with the single-image model resident and an inference
callable that yields `None`, the orchestrator does not propagate any error —
it returns a `GenerationResult` whose mesh is `None` (the source only guards
post-processing with `if mesh is not None`, then assembles the result
record unconditionally). -/
theorem infer_none_returns_result_cex :
    generateSingle opsNone envC mgr21 {} (ImgRef.image 3) =
      .ok { mesh := none, task_id := "t", processing_time := 0, config := {},
            input_mode := .single_image, view_count := 1 } := by
  rfl

/-- C1 (amended): when inference yields no usable mesh — `None`, or a list
whose first element is `None` — the request does not fail: both the
single-image and the multi-view flow skip post-processing and return a
`GenerationResult` whose mesh is `None` (with the usual task id, elapsed
time, config, mode and view count). -/
theorem infer_none_mesh_skips_postprocessing
    (ops : ExternalOps) (env : Env) (mgr : ManagerState) (cfg : GenerationConfig)
    (image : ImgRef) (views : List (String × ImgRef)) (p q : Nat)
    (pv : List (String × Img))
    (h1 : mgr.getModel (some .hunyuan3d_2_1) = .ok p)
    (h2 : takeFirst (ops.infer21 p (singleInferInput ops cfg image)
      cfg.num_inference_steps cfg.guidance_scale cfg.octree_resolution) = .ok none)
    (h3 : validateViews views = true)
    (h4 : mvPreprocessed ops cfg views = .ok pv)
    (h5 : (mvManager mgr).getModel (some .hunyuan3d_2mv) = .ok q)
    (h6 : takeFirst (ops.infer2mv q (mvLighting ops cfg pv)
      cfg.num_inference_steps cfg.guidance_scale cfg.octree_resolution) = .ok none) :
    generateSingle ops env mgr cfg image =
      .ok { mesh := none, task_id := env.taskId, processing_time := env.elapsed,
            config := cfg, input_mode := .single_image, view_count := 1 } ∧
    (generateMultiView ops env mgr cfg views).1 =
      .ok { mesh := none, task_id := env.taskId, processing_time := env.elapsed,
            config := cfg, input_mode := .multi_view,
            view_count := views.length } := by
  constructor
  · simp [generateSingle, h1, h2, postprocess]
  · simp [generateMultiView, h3, h4, h5, h6, postprocess]

/-- C1 witness: the amended behaviour at concrete inputs — both flows return
a result record with `mesh = None` when inference yields `None`. -/
theorem infer_none_mesh_witness :
    generateSingle opsNone envC mgrBoth {} (ImgRef.image 0) =
      .ok { mesh := none, task_id := "t", processing_time := 0, config := {},
            input_mode := .single_image, view_count := 1 } ∧
    (generateMultiView opsNone envC mgrBoth {} [("front", ImgRef.image 0)]).1 =
      .ok { mesh := none, task_id := "t", processing_time := 0, config := {},
            input_mode := .multi_view, view_count := 1 } :=
  infer_none_mesh_skips_postprocessing opsNone envC mgrBoth {}
    (ImgRef.image 0) [("front", ImgRef.image 0)] 0 1 [("front", 0)]
    rfl rfl rfl rfl rfl rfl

/-- A config with background removal disabled (other fields default). -/
def cfgNoBg : GenerationConfig := { remove_background := false }

/-- C3 counterexample: with `remove_background = false`, a multi-view request
whose mapping contains the view name `top` — outside the fixed set
{front, left, back, right} — is NOT rejected: the else-branch of the orchestrator
loads the images without any view-name validation, lazily loads the
multi-view model and proceeds through inference to a successful result. -/
theorem unknown_view_passes_without_bg_cex :
    "top" ∉ VIEW_ORDER ∧
    (generateMultiView opsC envC mgr21 cfgNoBg
        [("front", ImgRef.image 0), ("top", ImgRef.image 1)]).1 =
      .ok { mesh := some 7, task_id := "t", processing_time := 0,
            config := cfgNoBg, input_mode := .multi_view, view_count := 2 } := by
  exact ⟨by decide, rfl⟩

/-- C3 (amended): view names outside {front, left, back, right} are rejected
with a validation error during preprocessing only when background removal is
enabled (then `MultiViewProcessor.process` runs and raises on the first
unknown name, before any model load or inference, leaving the manager
unchanged — for every choice of collaborators); when `remove_background` is
false the view mapping is merely loaded, no view-name validation happens, and
the request can never fail with an invalid-view-name error. -/
theorem viewname_validation_only_when_bg
    (ops : ExternalOps) (env : Env) (mgr : ManagerState) (cfg : GenerationConfig)
    (views : List (String × ImgRef))
    (hfront : validateViews views = true)
    (hbad : ∃ pv ∈ views, pv.1 ∉ VIEW_ORDER) :
    (cfg.remove_background = true →
      ∃ n, n ∉ VIEW_ORDER ∧
        generateMultiView ops env mgr cfg views = (.error (.invalidViewName n), mgr)) ∧
    (cfg.remove_background = false →
      ∀ (n : String),
        (generateMultiView ops env mgr cfg views).1 ≠ .error (.invalidViewName n)) := by
  constructor
  · intro hbg
    obtain ⟨n, hn, he⟩ := processViews_invalid ops true views hbad
    refine ⟨n, hn, ?_⟩
    simp [generateMultiView, hfront, mvPreprocessed, hbg, he]
  · intro hbg n
    obtain ⟨q, hq⟩ := mvManager_getModel_ok mgr
    have hpre : mvPreprocessed ops cfg views = .ok (loadNoBg ops views) := by
      simp [mvPreprocessed, hbg]
    cases htf : takeFirst (ops.infer2mv q (mvLighting ops cfg (loadNoBg ops views))
        cfg.num_inference_steps cfg.guidance_scale cfg.octree_resolution) with
    | error e =>
      have he := takeFirst_error_eq _ _ htf
      simp [generateMultiView, hfront, hpre, hq, htf, he]
    | ok m =>
      simp [generateMultiView, hfront, hpre, hq, htf]

/-- C3 witness: with background removal enabled, the same request that the
counterexample lets through is rejected with the invalid-view-name error. -/
theorem viewname_validation_witness :
    ∃ n, n ∉ VIEW_ORDER ∧
      generateMultiView opsC envC mgr21 {}
          [("front", ImgRef.image 0), ("top", ImgRef.image 1)] =
        (.error (.invalidViewName n), mgr21) :=
  (viewname_validation_only_when_bg opsC envC mgr21 {}
      [("front", ImgRef.image 0), ("top", ImgRef.image 1)]
      rfl ⟨("top", ImgRef.image 1), by decide, by decide⟩).1 rfl

theorem generate_snd (ops : ExternalOps) (env : Env) (mgr : ManagerState)
    (cfg : GenerationConfig) (input : GenInput) :
    (generate ops env mgr cfg input).2 =
      if cfg.auto_detect_mode then { cfg with input_mode := detectInputMode input }
      else cfg := by
  by_cases h : cfg.auto_detect_mode <;> cases input <;>
    cases hm : cfg.input_mode <;> simp [generate, h, detectInputMode, hm]

/-- C6 counterexample: `generate` mutates the config of the caller.  With the
default config (`auto_detect_mode = true`, `input_mode = single_image`) and a
view-mapping input, the config object of the caller has `input_mode = multi_view`
after `generate` returns — the orchestrator assigned the detected mode onto
the dataclass of the caller. -/
theorem generate_mutates_config_cex :
    ({} : GenerationConfig).auto_detect_mode = true ∧
    ({} : GenerationConfig).input_mode = InputMode.single_image ∧
    ((generate opsC envC mgr21 {} (GenInput.views [("front", ImgRef.image 0)])).2).input_mode
      = InputMode.multi_view := by
  exact ⟨rfl, rfl, rfl⟩

/-- C6 (amended): `generate` can modify exactly one field of the config
object of the caller: when `auto_detect_mode` is set it overwrites `input_mode`
with the mode detected from the shape of the input; with `auto_detect_mode` false the
config is returned untouched, and in every case all fields other than
`input_mode` (in particular the optimization fields) are unchanged. -/
theorem generate_config_mutation_spec (ops : ExternalOps) (env : Env)
    (mgr : ManagerState) (cfg : GenerationConfig) (input : GenInput) :
    (cfg.auto_detect_mode = false → (generate ops env mgr cfg input).2 = cfg) ∧
    (cfg.auto_detect_mode = true →
      (generate ops env mgr cfg input).2 =
        { cfg with input_mode := detectInputMode input }) ∧
    { (generate ops env mgr cfg input).2 with input_mode := cfg.input_mode } = cfg := by
  refine ⟨?_, ?_, ?_⟩
  · intro h
    rw [generate_snd, if_neg (by simp [h])]
  · intro h
    rw [generate_snd, if_pos h]
  · rw [generate_snd]
    by_cases h : cfg.auto_detect_mode
    · rw [if_pos h]
    · rw [if_neg h]

/-- C6 witness: the amended property at concrete inputs — every field except
`input_mode` survives the call. -/
theorem generate_config_mutation_witness :
    { (generate opsC envC mgr21 ({} : GenerationConfig)
        (GenInput.views [("front", ImgRef.image 0)])).2 with
      input_mode := ({} : GenerationConfig).input_mode } = ({} : GenerationConfig) :=
  (generate_config_mutation_spec opsC envC mgr21 {}
    (GenInput.views [("front", ImgRef.image 0)])).2.2

/-- C5 witness: idempotence of `load_model` at a concrete state and kind. -/
theorem loadModel_idempotent_witness :
    (mgr21.loadModel .hunyuan3d_2mv).loadModel .hunyuan3d_2mv =
      mgr21.loadModel .hunyuan3d_2mv :=
  loadModel_idempotent_spec.2.1 mgr21 .hunyuan3d_2mv

/-- C9 witness: unload right after load clears the current pointer, at a
concrete state and kind. -/
theorem unloadModel_witness :
    ((mgr21.loadModel .hunyuan3d_2mv).unloadModel .hunyuan3d_2mv).currentModel = none :=
  unloadModel_spec.2.1 mgr21 .hunyuan3d_2mv

/-- C2 witness: the amended no-op guarantee at a concrete mesh — a strictly
greater target leaves the mesh unchanged. -/
theorem reduceFaces_strict_guard_witness :
    reduceFaces (fun ms _ => ms)
      { faceNumber := 12, vertexNumber := 8, payload := 0 } 13 =
      { faceNumber := 12, vertexNumber := 8, payload := 0 } :=
  (reduceFaces_strict_guard (fun ms _ => ms)
    { faceNumber := 12, vertexNumber := 8, payload := 0 } 13).1 (by decide)

/-- C7 witness: the ordered five-step chain at concrete filters and mesh. -/
theorem makeWatertight_order_witness :
    makeWatertight (fun m => .ok m) (fun m => .ok m) (fun m => .ok m)
        (fun m => .ok m) (fun m => .ok m)
        { faceNumber := 6, vertexNumber := 4, payload := 0 } =
      tryFilter (fun m => .ok m) (tryFilter (fun m => .ok m)
        (tryFilter (fun m => .ok m) (tryFilter (fun m => .ok m)
          (tryFilter (fun m => .ok m)
            { faceNumber := 6, vertexNumber := 4, payload := 0 })))) :=
  (makeWatertight_order_and_fault_tolerance (fun m => .ok m) (fun m => .ok m)
    (fun m => .ok m) (fun m => .ok m) (fun m => .ok m)
    { faceNumber := 6, vertexNumber := 4, payload := 0 }).1

/-! ### Lighting normalizer (src/preprocessing/lighting_normalizer.py) -/

/-- The mutable attributes of a `LightingNormalizer` instance. -/
structure LightingState where
  reference_view : String
  method : String
  strength : ℚ
  deriving DecidableEq, Repr

/-- Embeds `LightingNormalizer.__init__`: the strength is clamped to [0, 1]. -/
def LightingState.init (referenceView methodName : String) (strength : ℚ) :
    LightingState :=
  { reference_view := referenceView
    method := methodName
    strength := max 0 (min 1 strength) }

/-- The per-image correction primitives (`_histogram_matching`,
`_color_transfer`, `_auto_exposure_correction`, `Image.blend`) as opaque
operations on image handles; the histogram-matching arithmetic itself is
embedded separately below (claim C8). -/
structure LightingOps where
  histogramMatching : Img → Img → Img
  colorTransfer : Img → Img → Img
  autoExposure : Img → Img
  blend : Img → Img → ℚ → Img

/-- Python `views[key]` (as an `Option`). -/
def lookupView (views : List (String × Img)) (key : String) : Option Img :=
  (views.find? (fun p => p.1 == key)).map Prod.snd

/-- The per-view body of the `_process_multi_view` loop: the reference view
passes through; any other view is corrected by the selected method and then
blended with the original when strength < 1.0. -/
def correctOne (lops : LightingOps) (st : LightingState) (refImg : Img)
    (viewName : String) (img : Img) : Img :=
  if viewName = st.reference_view then img
  else
    let corrected :=
      if st.method = "histogram_matching" then lops.histogramMatching img refImg
      else if st.method = "color_transfer" then lops.colorTransfer img refImg
      else lops.autoExposure img
    if st.strength < 1 then lops.blend img corrected st.strength else corrected

/-- The main body of `_process_multi_view` once `self.reference_view` names a
present view: look the reference image up, correct every view, and return the
(possibly already mutated) instance state, the corrected views, and the
"reference_view" entry of the result dict. -/
def processWithRef (lops : LightingOps) (st : LightingState)
    (views : List (String × Img)) :
    LightingState × List (String × Img) × String :=
  let refImg := (lookupView views st.reference_view).getD 0
  (st, views.map (fun p => (p.1, correctOne lops st refImg p.1 p.2)),
    st.reference_view)

/-- Embeds `LightingNormalizer._process_multi_view`: when the configured reference
view is absent from the view set, the own `reference_view`
attribute of the instance is overwritten with the first available view name
(`list(views.keys())[0]`, an IndexError on an empty dict) before
processing. -/
def processMultiView (lops : LightingOps) (st : LightingState)
    (views : List (String × Img)) :
    Except PyError (LightingState × List (String × Img) × String) :=
  if hasViewKey views st.reference_view then
    .ok (processWithRef lops st views)
  else
    match views with
    | [] => .error .listIndexOutOfRange
    | (n, _) :: _ => .ok (processWithRef lops { st with reference_view := n } views)

/-- C10: the reference-view fallback is sticky.  When the configured
reference view is absent from the processed view set, `_process_multi_view`
permanently overwrites the `reference_view` attribute of the instance with the
first available view name: the call returns the mutated state (reference now
the first view name, which differs from the configured one), and every
subsequent call on that instance — even over a view set that does contain
the originally configured reference — uses the new reference view. -/
theorem lighting_reference_fallback_sticky
    (lops : LightingOps) (st : LightingState) (k : String) (i : Img)
    (rest : List (String × Img))
    (habs : hasViewKey ((k, i) :: rest) st.reference_view = false) :
    (∃ out1, processMultiView lops st ((k, i) :: rest) =
      .ok ({ st with reference_view := k }, out1, k)) ∧
    k ≠ st.reference_view ∧
    (∀ (views2 : List (String × Img)), hasViewKey views2 k = true →
      ∃ out2, processMultiView lops { st with reference_view := k } views2 =
        .ok ({ st with reference_view := k }, out2, k)) := by
  have hk : k ≠ st.reference_view := by
    intro he
    rw [hasViewKey] at habs
    simp [he] at habs
  refine ⟨?_, hk, ?_⟩
  · refine ⟨(processWithRef lops { st with reference_view := k } ((k, i) :: rest)).2.1, ?_⟩
    unfold processMultiView
    rw [if_neg (by simp [habs])]
    rfl
  · intro views2 h2
    refine ⟨(processWithRef lops { st with reference_view := k } views2).2.1, ?_⟩
    unfold processMultiView
    rw [if_pos h2]
    rfl

/-- Concrete lighting primitives for the C10 witness. -/
def lopsC : LightingOps :=
  { histogramMatching := fun i _ => i
    colorTransfer := fun i _ => i
    autoExposure := fun i => i
    blend := fun _ c _ => c }

/-- C10 witness: a normalizer configured with reference `front`, run over a
view set {left, back} without `front`, at concrete inputs. -/
theorem lighting_reference_fallback_witness :
    (∃ out1, processMultiView lopsC (LightingState.init "front" "histogram_matching" (4/5))
        [("left", 1), ("back", 2)] =
      .ok ({ LightingState.init "front" "histogram_matching" (4/5) with
              reference_view := "left" }, out1, "left")) ∧
    "left" ≠ (LightingState.init "front" "histogram_matching" (4/5)).reference_view ∧
    (∀ (views2 : List (String × Img)), hasViewKey views2 "left" = true →
      ∃ out2, processMultiView lopsC
          { LightingState.init "front" "histogram_matching" (4/5) with
            reference_view := "left" } views2 =
        .ok ({ LightingState.init "front" "histogram_matching" (4/5) with
                reference_view := "left" }, out2, "left")) :=
  lighting_reference_fallback_sticky lopsC
    (LightingState.init "front" "histogram_matching" (4/5)) "left" 1
    [("back", 2)] (by decide)

/-! ### Histogram matching (`LightingNormalizer._histogram_matching`)

One colour channel of an 8-bit image is its flattened list of pixel
intensities (each ≤ 255).  The source computes, per channel,
`np.histogram(..., bins=256, range=(0, 256))` (bin i counts the pixels of
intensity i), the normalized cumulative histograms of source and reference,
and then builds the 256-entry lookup table with a single `ref_idx` cursor
that is initialized to 0 before the `for src_idx in range(256)` loop and only
ever advances:

    while ref_idx < 255 and ref_cdf[ref_idx] < src_cdf[src_idx]: ref_idx += 1
    lookup_table[src_idx] = ref_idx

The float32 cdf normalization is modelled in exact rational arithmetic. -/

abbrev Channel := List Nat

/-- The cumulative histogram: the number of pixels with intensity ≤ i. -/
def cumHist (pix : Channel) (i : Nat) : Nat :=
  (pix.filter (fun v => decide (v ≤ i))).length

/-- The normalized cumulative histogram `cdf / cdf[-1]`. -/
def normCdf (pix : Channel) (i : Nat) : ℚ :=
  (cumHist pix i : ℚ) / (pix.length : ℚ)

/-- The inner while loop: advance `r` while `r < 255` and the reference cdf
at `r` is still below the source-cdf threshold `t`.  The fuel argument only
bounds the recursion; since the loop cannot pass 255, `256 - r` steps always
suffice. -/
def lutWalkF (refC : Nat → ℚ) (t : ℚ) : Nat → Nat → Nat
  | 0, r => r
  | fuel + 1, r => if r < 255 ∧ refC r < t then lutWalkF refC t fuel (r + 1) else r

def lutWalk (refC : Nat → ℚ) (t : ℚ) (r : Nat) : Nat :=
  lutWalkF refC t (256 - r) r

/-- The persistent `ref_idx` as it stands when the lookup-table loop reaches
`src_idx = v`. -/
def refIdxAt (srcC refC : Nat → ℚ) : Nat → Nat
  | 0 => 0
  | u + 1 => lutWalk refC (srcC u) (refIdxAt srcC refC u)

/-- Entry `lookup_table[v]`: where the walk for `src_idx = v` stops. -/
def lut (srcC refC : Nat → ℚ) (v : Nat) : Nat :=
  lutWalk refC (srcC v) (refIdxAt srcC refC v)

/-- Embeds `_histogram_matching` on one channel: build the lookup table from the two
normalized cumulative histograms and apply it to every pixel (the uint8
round-trip is the identity on intensities ≤ 255). -/
def histMatchChannel (src ref : Channel) : Channel :=
  src.map (fun v => lut (normCdf src) (normCdf ref) v)

theorem lutWalkF_ge (c : Nat → ℚ) (t : ℚ) :
    ∀ (fuel r : Nat), r ≤ lutWalkF c t fuel r := by
  intro fuel
  induction fuel with
  | zero => intro r; exact le_refl r
  | succ n ih =>
    intro r
    rw [lutWalkF]
    by_cases h : r < 255 ∧ c r < t
    · rw [if_pos h]
      exact le_trans (Nat.le_succ r) (ih (r + 1))
    · rw [if_neg h]

theorem lutWalkF_le (c : Nat → ℚ) (t : ℚ) :
    ∀ (fuel r m : Nat), r ≤ m → ¬ c m < t → lutWalkF c t fuel r ≤ m := by
  intro fuel
  induction fuel with
  | zero => intro r m hrm _; exact hrm
  | succ n ih =>
    intro r m hrm hm
    rw [lutWalkF]
    by_cases h : r < 255 ∧ c r < t
    · rw [if_pos h]
      have hne : r ≠ m := by
        intro he
        exact hm (he ▸ h.2)
      exact ih (r + 1) m (Nat.succ_le_of_lt (lt_of_le_of_ne hrm hne)) hm
    · rw [if_neg h]
      exact hrm

theorem lutWalkF_stop (c : Nat → ℚ) (t : ℚ) :
    ∀ (fuel r : Nat), 255 - r < fuel →
      ¬ (lutWalkF c t fuel r < 255 ∧ c (lutWalkF c t fuel r) < t) := by
  intro fuel
  induction fuel with
  | zero => intro r h; omega
  | succ n ih =>
    intro r hfuel
    rw [lutWalkF]
    by_cases h : r < 255 ∧ c r < t
    · rw [if_pos h]
      exact ih (r + 1) (by omega)
    · rw [if_neg h]
      exact h

theorem lutWalk_ge (c : Nat → ℚ) (t : ℚ) (r : Nat) : r ≤ lutWalk c t r :=
  lutWalkF_ge c t (256 - r) r

theorem lutWalk_le (c : Nat → ℚ) (t : ℚ) (r m : Nat) (hrm : r ≤ m)
    (hm : ¬ c m < t) : lutWalk c t r ≤ m :=
  lutWalkF_le c t (256 - r) r m hrm hm

theorem lutWalk_stop (c : Nat → ℚ) (t : ℚ) (r : Nat) :
    ¬ (lutWalk c t r < 255 ∧ c (lutWalk c t r) < t) := by
  by_cases hr : r ≤ 255
  · exact lutWalkF_stop c t (256 - r) r (by omega)
  · rw [lutWalk, Nat.sub_eq_zero_of_le (by omega), lutWalkF]
    intro hcon
    omega

/-- The carried cursor never gets ahead of the current source index when both
cdfs are the same function (self matching): the walk for index `u` cannot
pass `u`, since the threshold `c u` is already reached there. -/
theorem refIdxAt_self_le (c : Nat → ℚ) : ∀ (u : Nat), refIdxAt c c u ≤ u := by
  intro u
  induction u with
  | zero => exact le_refl 0
  | succ n ih =>
    rw [refIdxAt]
    exact le_trans (lutWalk_le c (c n) (refIdxAt c c n) n ih (lt_irrefl (c n)))
      (Nat.le_succ n)

theorem cumHist_mono (pix : Channel) (i j : Nat) (hij : i ≤ j) :
    cumHist pix i ≤ cumHist pix j := by
  induction pix with
  | nil => exact le_refl 0
  | cons v rest ih =>
    rw [cumHist, cumHist, List.filter_cons, List.filter_cons]
    by_cases hv : v ≤ i
    · rw [if_pos (by simpa using hv), if_pos (by simpa using le_trans hv hij)]
      simpa [cumHist] using ih
    · rw [if_neg (by simpa using hv)]
      by_cases hvj : v ≤ j
      · rw [if_pos (by simpa using hvj)]
        simp only [List.length_cons]
        exact le_trans ih (Nat.le_succ _)
      · rw [if_neg (by simpa using hvj)]
        exact ih

theorem cumHist_strict (pix : Channel) (v j : Nat) (hv : v ∈ pix) (hj : j < v) :
    cumHist pix j < cumHist pix v := by
  induction pix with
  | nil => simp at hv
  | cons x rest ih =>
    rw [cumHist, cumHist, List.filter_cons, List.filter_cons]
    rcases List.mem_cons.mp hv with he | hm
    · subst he
      rw [if_neg (by simp; omega), if_pos (by simp)]
      simp only [List.length_cons]
      exact Nat.lt_succ_of_le (cumHist_mono rest j v (le_of_lt hj))
    · have hlt := ih hm
      by_cases hx : x ≤ j
      · rw [if_pos (by simpa using hx), if_pos (by simp; omega)]
        simpa [cumHist] using hlt
      · rw [if_neg (by simpa using hx)]
        by_cases hxv : x ≤ v
        · rw [if_pos (by simpa using hxv)]
          simp only [List.length_cons]
          exact Nat.lt_succ_of_le (le_of_lt hlt)
        · rw [if_neg (by simpa using hxv)]
          exact hlt

theorem normCdf_lt_iff (pix : Channel) (hne : pix ≠ []) (a b : Nat) :
    (normCdf pix a < normCdf pix b ↔ cumHist pix a < cumHist pix b) := by
  have hpos : (0 : ℚ) < (pix.length : ℚ) := by
    have : 0 < pix.length := List.length_pos.mpr hne
    exact_mod_cast this
  rw [normCdf, normCdf, div_lt_div_iff_of_pos_right hpos]
  exact_mod_cast Iff.rfl

theorem map_self_of_mem {α : Type} (l : List α) (f : α → α)
    (h : ∀ x ∈ l, f x = x) : l.map f = l := by
  induction l with
  | nil => rfl
  | cons a t ih =>
    rw [List.map_cons, h a (List.mem_cons_self a t),
      ih (fun x hx => h x (List.mem_cons_of_mem a hx))]

theorem lut_self_id (pix : Channel) (w : Nat) (hw : w ∈ pix)
    (hwle : w ≤ 255) : lut (normCdf pix) (normCdf pix) w = w := by
  have hne : pix ≠ [] := by
    intro h
    rw [h] at hw
    simp at hw
  have hr0 : refIdxAt (normCdf pix) (normCdf pix) w ≤ w :=
    refIdxAt_self_le (normCdf pix) w
  have hle : lut (normCdf pix) (normCdf pix) w ≤ w :=
    lutWalk_le (normCdf pix) (normCdf pix w) _ w hr0 (lt_irrefl (normCdf pix w))
  have hge : w ≤ lut (normCdf pix) (normCdf pix) w := by
    by_contra hcon
    push_neg at hcon
    have hstop := lutWalk_stop (normCdf pix) (normCdf pix w)
      (refIdxAt (normCdf pix) (normCdf pix) w)
    have hlt255 : lut (normCdf pix) (normCdf pix) w < 255 := by
      rw [lut] at *
      omega
    have hcdf : normCdf pix (lut (normCdf pix) (normCdf pix) w) < normCdf pix w :=
      (normCdf_lt_iff pix hne _ w).mpr (cumHist_strict pix w _ hw hcon)
    rw [lut] at hcdf hlt255
    exact hstop ⟨hlt255, hcdf⟩
  exact le_antisymm hle hge

/-- C8: histogram matching of an image against itself is the identity.  For
every channel (pixel list over intensities ≤ 255), the lookup table built
from the own cumulative histograms of the channel maps every intensity that
actually occurs in the channel to itself, and consequently the matched
channel equals the source channel exactly (the only rounding in the source is
the final integer conversion, which is the identity here). -/
theorem histogram_self_matching_identity (pix : Channel) (v : Nat)
    (hv : v ∈ pix) (hb : ∀ x ∈ pix, x ≤ 255) :
    lut (normCdf pix) (normCdf pix) v = v ∧ histMatchChannel pix pix = pix := by
  refine ⟨lut_self_id pix v hv (hb v hv), ?_⟩
  rw [histMatchChannel]
  exact map_self_of_mem pix _ (fun x hx => lut_self_id pix x hx (hb x hx))

/-- C8 witness: self-matching is the identity on a concrete channel. -/
theorem histogram_self_matching_witness :
    lut (normCdf [0, 3, 3, 7]) (normCdf [0, 3, 3, 7]) 3 = 3 ∧
    histMatchChannel [0, 3, 3, 7] [0, 3, 3, 7] = [0, 3, 3, 7] :=
  histogram_self_matching_identity [0, 3, 3, 7] 3 (by decide) (by decide)

end HY3D
